import Mathlib

/-!
# Verification of the adaptive multi-strategy trading engine

Shallow embedding, over `ℚ`, of the decision/risk subsystem of the
repository (`user_data/strategies/adaptive/`): `RiskManager`,
`CircuitBreaker` (risk_manager.py), `ThompsonSamplingSelector`
(thompson_sampling.py), `StrategySelector` (adaptive_multi_strategy.py),
`TrendDetector` (market_regime.py) and `PerformanceTracker`
(performance_tracker.py).

Modelling conventions:
* Python `float` is modelled by `ℚ` (exact arithmetic).
* `datetime` values are modelled by `ℚ` timestamps measured in minutes
  (hours for the performance tracker, whose lookback is given in hours);
  calendar dates used by the daily-counter reset are modelled by `ℤ`.
* Python dicts are modelled by total functions with the dict's default
  (`dict.get(k, d)`) or by insertion-ordered association lists where
  iteration order matters.
* Randomness (`np.random.beta`) is modelled by passing the drawn samples
  in as an oracle argument.
* Log messages are ignored; returned reason strings that carry
  interpolated numbers are modelled by an inductive type with one
  constructor per `return` site carrying the interpolated values.
-/

/-! ## risk_manager.py: configuration records -/

/-- `StrategyRiskConfig` dataclass (risk_manager.py). -/
structure StrategyRiskConfig where
  name : String
  max_capital_pct : ℚ := 3/10
  max_positions : ℕ := 3
  max_daily_trades : ℕ := 10
  max_daily_loss_pct : ℚ := 1/20
  cooldown_after_loss : ℚ := 30
  position_size_multiplier : ℚ := 1

/-- `PortfolioRiskConfig` dataclass (risk_manager.py); the `risk_level`
field is never read by the embedded operations and is omitted. -/
structure PortfolioRiskConfig where
  total_capital : ℚ
  max_open_trades : ℕ := 5
  max_drawdown_pct : ℚ := 3/20
  daily_loss_limit_pct : ℚ := 1/20
  risk_per_trade_pct : ℚ := 1/50

/-- `RiskManager._setup_default_strategy_configs`: the default
per-strategy risk configurations installed by `RiskManager.__init__`. -/
def defaultStrategyConfigs : String → Option StrategyRiskConfig := fun name =>
  if name = "TrendFollowing" then
    some { name := "TrendFollowing", max_capital_pct := 35/100, max_positions := 2,
           max_daily_trades := 8, max_daily_loss_pct := 4/100,
           cooldown_after_loss := 20, position_size_multiplier := 1 }
  else if name = "Grid" then
    some { name := "Grid", max_capital_pct := 40/100, max_positions := 5,
           max_daily_trades := 15, max_daily_loss_pct := 3/100,
           cooldown_after_loss := 15, position_size_multiplier := 8/10 }
  else if name = "MeanReversion" then
    some { name := "MeanReversion", max_capital_pct := 25/100, max_positions := 3,
           max_daily_trades := 10, max_daily_loss_pct := 3/100,
           cooldown_after_loss := 25, position_size_multiplier := 9/10 }
  else none

/-- Mutable state of a `RiskManager` instance (risk_manager.py).
`trade_history` is append-only and never read by the operations embedded
here, so it is omitted.  The per-strategy dicts are modelled as total
functions (`dict.get(k, 0)` / `dict.get(k)` semantics). -/
structure RiskManager where
  portfolio_config : PortfolioRiskConfig
  strategy_configs : String → Option StrategyRiskConfig
  daily_pnl : ℚ
  last_daily_reset_date : ℤ
  strategy_positions : String → ℕ
  strategy_daily_trades : String → ℕ
  strategy_last_loss : String → Option ℚ
  peak_capital : ℚ
  current_capital : ℚ

/-- `RiskManager.__init__(portfolio_config)`. -/
def RiskManager.init (portfolio_config : PortfolioRiskConfig) (today : ℤ) : RiskManager where
  portfolio_config := portfolio_config
  strategy_configs := defaultStrategyConfigs
  daily_pnl := 0
  last_daily_reset_date := today
  strategy_positions := fun _ => 0
  strategy_daily_trades := fun _ => 0
  strategy_last_loss := fun _ => none
  peak_capital := portfolio_config.total_capital
  current_capital := portfolio_config.total_capital

/-- `RiskManager._reset_daily_counters`: zero the daily counters when the
calendar date has rolled over. -/
def RiskManager.resetDailyCounters (rm : RiskManager) (now_date : ℤ) : RiskManager :=
  if rm.last_daily_reset_date < now_date then
    { rm with daily_pnl := 0, strategy_daily_trades := fun _ => 0,
              last_daily_reset_date := now_date }
  else rm

/-- One constructor per `return` site of `RiskManager.check_position_allowed`,
carrying the values interpolated into the reason string. -/
inductive CheckReason where
  | maxPortfolioPositions (max_open_trades : ℕ)
  | dailyLossLimit (daily_loss_limit_pct : ℚ)
  | maxDrawdown (current_drawdown : ℚ)
  | strategyMaxPositions (strategy_name : String) (max_positions : ℕ)
  | strategyDailyTradeLimit (strategy_name : String)
  | strategyCooldown (strategy_name : String) (remaining : ℚ)
  | ok
  deriving DecidableEq

/-- `RiskManager.check_position_allowed(strategy_name, pair, current_positions)`.
`now_date` is today's calendar date, `now` the current time in minutes.
Returns the state after the daily-counter reset together with the
`(allowed, reason)` pair returned by the Python method. -/
def RiskManager.check_position_allowed (rm : RiskManager) (now_date : ℤ) (now : ℚ)
    (strategy_name : String) (_pair : String) (current_positions : ℕ) :
    RiskManager × Bool × CheckReason :=
  let rm := rm.resetDailyCounters now_date
  if rm.portfolio_config.max_open_trades ≤ current_positions then
    (rm, false, .maxPortfolioPositions rm.portfolio_config.max_open_trades)
  else if rm.daily_pnl ≤ -rm.portfolio_config.daily_loss_limit_pct then
    (rm, false, .dailyLossLimit rm.portfolio_config.daily_loss_limit_pct)
  else
    let current_drawdown := (rm.peak_capital - rm.current_capital) / rm.peak_capital
    if rm.portfolio_config.max_drawdown_pct ≤ current_drawdown then
      (rm, false, .maxDrawdown current_drawdown)
    else
      match rm.strategy_configs strategy_name with
      | some config =>
        if config.max_positions ≤ rm.strategy_positions strategy_name then
          (rm, false, .strategyMaxPositions strategy_name config.max_positions)
        else if config.max_daily_trades ≤ rm.strategy_daily_trades strategy_name then
          (rm, false, .strategyDailyTradeLimit strategy_name)
        else
          match rm.strategy_last_loss strategy_name with
          | some last_loss =>
            if now < last_loss + config.cooldown_after_loss then
              (rm, false,
                .strategyCooldown strategy_name (last_loss + config.cooldown_after_loss - now))
            else (rm, true, .ok)
          | none => (rm, true, .ok)
      | none => (rm, true, .ok)

/-- `RiskManager.calculate_position_size(strategy_name, confidence,
proposed_stake, entry_price, stop_loss_pct)`.  The simplified Kelly
fraction is computed by the source only for logging and does not feed the
returned size; it is reproduced here for fidelity. -/
def RiskManager.calculate_position_size (rm : RiskManager) (strategy_name : String)
    (confidence : ℚ) (proposed_stake : ℚ) (_entry_price : ℚ) (stop_loss_pct : ℚ) : ℚ :=
  let config := rm.strategy_configs strategy_name
  let risk_amount := rm.current_capital * rm.portfolio_config.risk_per_trade_pct
  let win_prob := 45/100 + confidence * (2/10)
  let avg_win := (2 : ℚ)/100
  let avg_loss := |stop_loss_pct|
  let _kelly_fraction :=
    if 0 < avg_loss then
      max 0 (min ((win_prob * avg_win - (1 - win_prob) * avg_loss) / avg_loss) (1/4))
    else (1 : ℚ)/10
  let position_from_risk :=
    if stop_loss_pct ≠ 0 then risk_amount / |stop_loss_pct| else proposed_stake
  let position_from_risk :=
    match config with
    | some c => position_from_risk * c.position_size_multiplier
    | none => position_from_risk
  let confidence_multiplier := 1/2 + confidence * (1/2)
  let position_from_risk := position_from_risk * confidence_multiplier
  let position_from_risk :=
    match config with
    | some c =>
      let max_strategy_capital := rm.current_capital * c.max_capital_pct
      let current_strategy_exposure :=
        (rm.strategy_positions strategy_name : ℚ) * proposed_stake
      min position_from_risk (max_strategy_capital - current_strategy_exposure)
    | none => position_from_risk
  let final_position := min position_from_risk proposed_stake
  max final_position (proposed_stake * (3/10))

/-! ## Theorems for claim C1 -/

/-- **C1.** For every call to `RiskManager.calculate_position_size` with
`proposed_stake ≥ 0`, the returned size is never greater than
`proposed_stake` and never less than `0.3 × proposed_stake`, regardless of
strategy name, confidence, stop distance, or remaining strategy-capital
headroom. -/
theorem calculate_position_size_bounds (rm : RiskManager) (strategy_name : String)
    (confidence proposed_stake entry_price stop_loss_pct : ℚ)
    (hstake : 0 ≤ proposed_stake) :
    proposed_stake * (3/10) ≤
        rm.calculate_position_size strategy_name confidence proposed_stake
          entry_price stop_loss_pct ∧
      rm.calculate_position_size strategy_name confidence proposed_stake
          entry_price stop_loss_pct ≤ proposed_stake := by
  unfold RiskManager.calculate_position_size
  constructor
  · exact le_max_right _ _
  · apply max_le
    · exact min_le_right _ _
    · nlinarith

/-- Witness for C1 at a concrete state and input. -/
theorem calculate_position_size_bounds_witness :
    (0 : ℚ) ≤ 100 ∧
      (100 : ℚ) * (3/10) ≤
          (RiskManager.init { total_capital := 1000 } 0).calculate_position_size
            "TrendFollowing" (1/2) 100 25000 (3/100) ∧
        (RiskManager.init { total_capital := 1000 } 0).calculate_position_size
            "TrendFollowing" (1/2) 100 25000 (3/100) ≤ 100 :=
  ⟨by norm_num,
    calculate_position_size_bounds (RiskManager.init { total_capital := 1000 } 0)
      "TrendFollowing" (1/2) 100 25000 (3/100) (by norm_num)⟩

/-! ## Theorems for claims C2 and C3 -/

/-- Test fixture: a freshly initialised risk manager over a 1000-unit
portfolio whose current capital is overridden. -/
def testRM (current : ℚ) : RiskManager :=
  { RiskManager.init { total_capital := 1000 } 0 with current_capital := current }

theorem resetDailyCounters_portfolio_config (rm : RiskManager) (d : ℤ) :
    (rm.resetDailyCounters d).portfolio_config = rm.portfolio_config := by
  unfold RiskManager.resetDailyCounters; split <;> rfl

theorem resetDailyCounters_peak_capital (rm : RiskManager) (d : ℤ) :
    (rm.resetDailyCounters d).peak_capital = rm.peak_capital := by
  unfold RiskManager.resetDailyCounters; split <;> rfl

theorem resetDailyCounters_current_capital (rm : RiskManager) (d : ℤ) :
    (rm.resetDailyCounters d).current_capital = rm.current_capital := by
  unfold RiskManager.resetDailyCounters; split <;> rfl

/-- **C2 (counterexample).** The claim says the drawdown check blocks once
the drawdown strictly exceeds `max_drawdown_pct` and "does not block on
drawdown otherwise".  With `peak_capital = 1000`, `current_capital = 850`
and `max_drawdown_pct = 0.15` the drawdown is exactly `0.15` — it does not
exceed the limit — yet the code (which compares with `>=`) blocks with the
drawdown reason. -/
theorem check_position_allowed_drawdown_boundary :
    ((testRM 850).check_position_allowed 0 0 "TrendFollowing" "BTC/USDT" 0).2 =
        (false, CheckReason.maxDrawdown (3/20)) ∧
      ¬ ((1000 - 850 : ℚ) / 1000 > 3/20) := by
  constructor
  · norm_num [testRM, RiskManager.init, RiskManager.check_position_allowed,
      RiskManager.resetDailyCounters, defaultStrategyConfigs]
  · norm_num

/-- **C2 (amended).** `RiskManager.check_position_allowed` returns
`(False, reason mentioning drawdown)` exactly when `current_capital` has
fallen below `peak_capital` by enough to *reach or exceed*
`max_drawdown_pct` (Python compares with `>=`), provided the earlier
portfolio-position and daily-loss checks pass; it does not block on
drawdown otherwise.  Concretely (see the witness), with
`peak_capital = 1000` and `max_drawdown_pct = 0.15`,
`current_capital = 840` is blocked while `860` is allowed. -/
theorem check_position_allowed_drawdown (rm : RiskManager) (now_date : ℤ) (now : ℚ)
    (strategy_name pair : String) (current_positions : ℕ)
    (hpos : current_positions < rm.portfolio_config.max_open_trades)
    (hpnl : -rm.portfolio_config.daily_loss_limit_pct <
      (rm.resetDailyCounters now_date).daily_pnl) :
    (rm.check_position_allowed now_date now strategy_name pair current_positions).2 =
        (false, CheckReason.maxDrawdown
          ((rm.peak_capital - rm.current_capital) / rm.peak_capital)) ↔
      rm.portfolio_config.max_drawdown_pct ≤
        (rm.peak_capital - rm.current_capital) / rm.peak_capital := by
  unfold RiskManager.check_position_allowed
  rw [if_neg (by rw [resetDailyCounters_portfolio_config]; omega),
    if_neg (by rw [resetDailyCounters_portfolio_config]; exact not_le.mpr hpnl)]
  rw [resetDailyCounters_portfolio_config, resetDailyCounters_peak_capital,
    resetDailyCounters_current_capital]
  constructor
  · intro h
    by_contra hdd
    rw [if_neg hdd] at h
    rcases hc : (rm.resetDailyCounters now_date).strategy_configs strategy_name with _ | config
    all_goals rw [hc] at h
    · simp at h
    · rcases hl : (rm.resetDailyCounters now_date).strategy_last_loss strategy_name with _ | ll
      all_goals rw [hl] at h
      all_goals dsimp only at h
      · split_ifs at h <;> simp_all
      · split_ifs at h <;> simp_all
  · intro hdd
    rw [if_pos hdd]

/-- Witness for C2: `current_capital = 840` is blocked with the drawdown
reason, `current_capital = 860` is allowed. -/
theorem check_position_allowed_drawdown_witness :
    ((testRM 840).check_position_allowed 0 0 "TrendFollowing" "BTC/USDT" 0).2 =
        (false, CheckReason.maxDrawdown (4/25)) ∧
      ((testRM 860).check_position_allowed 0 0 "TrendFollowing" "BTC/USDT" 0).2 =
        (true, CheckReason.ok) := by
  constructor
  · have h := check_position_allowed_drawdown (testRM 840) 0 0 "TrendFollowing"
      "BTC/USDT" 0 (by decide) (by norm_num [testRM, RiskManager.init,
        RiskManager.resetDailyCounters])
    rw [show ((testRM 840).peak_capital - (testRM 840).current_capital) /
        (testRM 840).peak_capital = 4/25 by norm_num [testRM, RiskManager.init]] at h
    exact h.mpr (by norm_num [testRM, RiskManager.init])
  · norm_num [testRM, RiskManager.init, RiskManager.check_position_allowed,
      RiskManager.resetDailyCounters, defaultStrategyConfigs]

@[simp]
theorem resetDailyCounters_strategy_configs (rm : RiskManager) (d : ℤ) :
    (rm.resetDailyCounters d).strategy_configs = rm.strategy_configs := by
  unfold RiskManager.resetDailyCounters; split <;> rfl

@[simp]
theorem resetDailyCounters_strategy_positions (rm : RiskManager) (d : ℤ) :
    (rm.resetDailyCounters d).strategy_positions = rm.strategy_positions := by
  unfold RiskManager.resetDailyCounters; split <;> rfl

@[simp]
theorem resetDailyCounters_strategy_last_loss (rm : RiskManager) (d : ℤ) :
    (rm.resetDailyCounters d).strategy_last_loss = rm.strategy_last_loss := by
  unfold RiskManager.resetDailyCounters; split <;> rfl

/-- **C3.** `RiskManager.check_position_allowed` evaluates its limits in
the fixed order (a) portfolio-wide concurrent-position cap, (b) daily-loss
limit, (c) drawdown from peak, (d) per-strategy position cap, (e)
per-strategy daily-trade cap, (f) per-strategy post-loss cooldown,
returning `(False, first failing reason)` or `(True, "OK")`; the
portfolio-level checks (a)–(c) are evaluated for every strategy name,
known or unknown, so a portfolio-level breach always blocks.  The
daily-P&L and daily-trade counters are the ones in force after the
daily-rollover reset that the method performs first. -/
theorem check_position_allowed_order (rm : RiskManager) (now_date : ℤ) (now : ℚ)
    (strategy_name pair : String) (current_positions : ℕ) :
    (rm.portfolio_config.max_open_trades ≤ current_positions →
      (rm.check_position_allowed now_date now strategy_name pair current_positions).2 =
        (false, CheckReason.maxPortfolioPositions rm.portfolio_config.max_open_trades)) ∧
    (¬ rm.portfolio_config.max_open_trades ≤ current_positions →
      (rm.resetDailyCounters now_date).daily_pnl ≤
          -rm.portfolio_config.daily_loss_limit_pct →
      (rm.check_position_allowed now_date now strategy_name pair current_positions).2 =
        (false, CheckReason.dailyLossLimit rm.portfolio_config.daily_loss_limit_pct)) ∧
    (¬ rm.portfolio_config.max_open_trades ≤ current_positions →
      ¬ (rm.resetDailyCounters now_date).daily_pnl ≤
          -rm.portfolio_config.daily_loss_limit_pct →
      rm.portfolio_config.max_drawdown_pct ≤
          (rm.peak_capital - rm.current_capital) / rm.peak_capital →
      (rm.check_position_allowed now_date now strategy_name pair current_positions).2 =
        (false, CheckReason.maxDrawdown
          ((rm.peak_capital - rm.current_capital) / rm.peak_capital))) ∧
    (∀ config, rm.strategy_configs strategy_name = some config →
      ¬ rm.portfolio_config.max_open_trades ≤ current_positions →
      ¬ (rm.resetDailyCounters now_date).daily_pnl ≤
          -rm.portfolio_config.daily_loss_limit_pct →
      ¬ rm.portfolio_config.max_drawdown_pct ≤
          (rm.peak_capital - rm.current_capital) / rm.peak_capital →
      config.max_positions ≤ rm.strategy_positions strategy_name →
      (rm.check_position_allowed now_date now strategy_name pair current_positions).2 =
        (false, CheckReason.strategyMaxPositions strategy_name config.max_positions)) ∧
    (∀ config, rm.strategy_configs strategy_name = some config →
      ¬ rm.portfolio_config.max_open_trades ≤ current_positions →
      ¬ (rm.resetDailyCounters now_date).daily_pnl ≤
          -rm.portfolio_config.daily_loss_limit_pct →
      ¬ rm.portfolio_config.max_drawdown_pct ≤
          (rm.peak_capital - rm.current_capital) / rm.peak_capital →
      ¬ config.max_positions ≤ rm.strategy_positions strategy_name →
      config.max_daily_trades ≤
          (rm.resetDailyCounters now_date).strategy_daily_trades strategy_name →
      (rm.check_position_allowed now_date now strategy_name pair current_positions).2 =
        (false, CheckReason.strategyDailyTradeLimit strategy_name)) ∧
    (∀ config last_loss, rm.strategy_configs strategy_name = some config →
      rm.strategy_last_loss strategy_name = some last_loss →
      ¬ rm.portfolio_config.max_open_trades ≤ current_positions →
      ¬ (rm.resetDailyCounters now_date).daily_pnl ≤
          -rm.portfolio_config.daily_loss_limit_pct →
      ¬ rm.portfolio_config.max_drawdown_pct ≤
          (rm.peak_capital - rm.current_capital) / rm.peak_capital →
      ¬ config.max_positions ≤ rm.strategy_positions strategy_name →
      ¬ config.max_daily_trades ≤
          (rm.resetDailyCounters now_date).strategy_daily_trades strategy_name →
      now < last_loss + config.cooldown_after_loss →
      (rm.check_position_allowed now_date now strategy_name pair current_positions).2 =
        (false, CheckReason.strategyCooldown strategy_name
          (last_loss + config.cooldown_after_loss - now))) ∧
    (rm.strategy_configs strategy_name = none →
      ¬ rm.portfolio_config.max_open_trades ≤ current_positions →
      ¬ (rm.resetDailyCounters now_date).daily_pnl ≤
          -rm.portfolio_config.daily_loss_limit_pct →
      ¬ rm.portfolio_config.max_drawdown_pct ≤
          (rm.peak_capital - rm.current_capital) / rm.peak_capital →
      (rm.check_position_allowed now_date now strategy_name pair current_positions).2 =
        (true, CheckReason.ok)) ∧
    (∀ config, rm.strategy_configs strategy_name = some config →
      ¬ rm.portfolio_config.max_open_trades ≤ current_positions →
      ¬ (rm.resetDailyCounters now_date).daily_pnl ≤
          -rm.portfolio_config.daily_loss_limit_pct →
      ¬ rm.portfolio_config.max_drawdown_pct ≤
          (rm.peak_capital - rm.current_capital) / rm.peak_capital →
      ¬ config.max_positions ≤ rm.strategy_positions strategy_name →
      ¬ config.max_daily_trades ≤
          (rm.resetDailyCounters now_date).strategy_daily_trades strategy_name →
      (∀ last_loss, rm.strategy_last_loss strategy_name = some last_loss →
        ¬ now < last_loss + config.cooldown_after_loss) →
      (rm.check_position_allowed now_date now strategy_name pair current_positions).2 =
        (true, CheckReason.ok)) := by
  unfold RiskManager.check_position_allowed
  simp only [resetDailyCounters_portfolio_config, resetDailyCounters_peak_capital,
    resetDailyCounters_current_capital, resetDailyCounters_strategy_configs,
    resetDailyCounters_strategy_positions, resetDailyCounters_strategy_last_loss]
  refine ⟨?_, ?_, ?_, ?_, ?_, ?_, ?_, ?_⟩
  · intro hA
    rw [if_pos hA]
  · intro hA hB
    rw [if_neg hA, if_pos hB]
  · intro hA hB hC
    rw [if_neg hA, if_neg hB, if_pos hC]
  · intro config hcfg hA hB hC hD
    rw [if_neg hA, if_neg hB, if_neg hC, hcfg]
    dsimp only
    rw [if_pos hD]
  · intro config hcfg hA hB hC hD hE
    rw [if_neg hA, if_neg hB, if_neg hC, hcfg]
    dsimp only
    rw [if_neg hD, if_pos hE]
  · intro config last_loss hcfg hll hA hB hC hD hE hF
    rw [if_neg hA, if_neg hB, if_neg hC, hcfg]
    dsimp only
    rw [if_neg hD, if_neg hE, hll]
    dsimp only
    rw [if_pos hF]
  · intro hcfg hA hB hC
    rw [if_neg hA, if_neg hB, if_neg hC, hcfg]
  · intro config hcfg hA hB hC hD hE hF
    rw [if_neg hA, if_neg hB, if_neg hC, hcfg]
    dsimp only
    rw [if_neg hD, if_neg hE]
    rcases hll : rm.strategy_last_loss strategy_name with _ | ll
    · rfl
    · dsimp only
      rw [if_neg (hF ll hll)]

/-- Witness for C3: with five open portfolio positions the portfolio-wide
cap (check (a)) blocks, whatever the strategy. -/
theorem check_position_allowed_order_witness :
    ((testRM 1000).check_position_allowed 0 0 "Grid" "ETH/USDT" 5).2 =
      (false, CheckReason.maxPortfolioPositions 5) := by
  have h := (check_position_allowed_order (testRM 1000) 0 0 "Grid" "ETH/USDT" 5).1
    (by norm_num [testRM, RiskManager.init])
  simpa [testRM, RiskManager.init] using h

/-! ## risk_manager.py: CircuitBreaker -/

/-- One constructor per `self.trip(...)` call site of
`CircuitBreaker.check_and_trip`, carrying the interpolated values. -/
inductive TripReason where
  | extremeVolatility
  | flashCrashOrPump (price_change_1h : ℚ)
  | volumeAnomaly (volume_spike : ℚ)
  deriving DecidableEq

/-- `CircuitBreaker` state (risk_manager.py). -/
structure CircuitBreaker where
  is_tripped : Bool
  trip_reason : Option TripReason
  trip_time : Option ℚ
  auto_reset_minutes : ℚ
  deriving DecidableEq

/-- `CircuitBreaker.__init__`. -/
def CircuitBreaker.init : CircuitBreaker where
  is_tripped := false
  trip_reason := none
  trip_time := none
  auto_reset_minutes := 60

/-- `CircuitBreaker.trip(reason)`. -/
def CircuitBreaker.trip (cb : CircuitBreaker) (reason : TripReason) (now : ℚ) :
    CircuitBreaker :=
  { cb with is_tripped := true, trip_reason := some reason, trip_time := some now }

/-- `CircuitBreaker.reset()`. -/
def CircuitBreaker.reset (cb : CircuitBreaker) : CircuitBreaker :=
  { cb with is_tripped := false, trip_reason := none, trip_time := none }

/-- `CircuitBreaker.check_and_trip(volatility, price_change_1h, volume_spike)`;
`now` is the current time in minutes.  Returns the updated breaker and the
boolean result. -/
def CircuitBreaker.check_and_trip (cb : CircuitBreaker) (now : ℚ)
    (volatility : String) (price_change_1h volume_spike : ℚ) :
    CircuitBreaker × Bool :=
  let cb :=
    match cb.is_tripped, cb.trip_time with
    | true, some t => if cb.auto_reset_minutes < now - t then cb.reset else cb
    | _, _ => cb
  if cb.is_tripped then (cb, true)
  else if volatility = "extreme" then (cb.trip .extremeVolatility now, true)
  else if 1/10 < |price_change_1h| then (cb.trip (.flashCrashOrPump price_change_1h) now, true)
  else if 5 < volume_spike then (cb.trip (.volumeAnomaly volume_spike) now, true)
  else (cb, false)

/-! ## Theorems for claim C4 -/

/-- **C4.** `CircuitBreaker.check_and_trip` trips (returns `True` and
latches, stamping the trip time) when volatility equals `"extreme"`, or
`|price_change_1h|` exceeds `0.10`, or `volume_spike` exceeds `5.0`; once
tripped, every subsequent call within `auto_reset_minutes` (default 60)
of the trip time returns `True` with the state unchanged, regardless of
the input values; once more than `auto_reset_minutes` have elapsed it
auto-resets (returning `False` on calm inputs) unless the conditions
re-trip it. -/
theorem check_and_trip_spec (cb : CircuitBreaker) (now t : ℚ)
    (volatility : String) (price_change_1h volume_spike : ℚ) :
    (CircuitBreaker.init.auto_reset_minutes = 60) ∧
    (cb.is_tripped = false →
      (volatility = "extreme" ∨ 1/10 < |price_change_1h| ∨ 5 < volume_spike) →
      (cb.check_and_trip now volatility price_change_1h volume_spike).2 = true ∧
        (cb.check_and_trip now volatility price_change_1h volume_spike).1.is_tripped = true ∧
        (cb.check_and_trip now volatility price_change_1h volume_spike).1.trip_time =
          some now) ∧
    (cb.is_tripped = true → cb.trip_time = some t →
      now - t ≤ cb.auto_reset_minutes →
      cb.check_and_trip now volatility price_change_1h volume_spike = (cb, true)) ∧
    (cb.is_tripped = true → cb.trip_time = some t →
      cb.auto_reset_minutes < now - t →
      ¬ volatility = "extreme" → |price_change_1h| ≤ 1/10 → volume_spike ≤ 5 →
      cb.check_and_trip now volatility price_change_1h volume_spike =
        (cb.reset, false)) ∧
    (cb.is_tripped = true → cb.trip_time = some t →
      cb.auto_reset_minutes < now - t →
      (volatility = "extreme" ∨ 1/10 < |price_change_1h| ∨ 5 < volume_spike) →
      (cb.check_and_trip now volatility price_change_1h volume_spike).2 = true ∧
        (cb.check_and_trip now volatility price_change_1h volume_spike).1.trip_time =
          some now) := by
  refine ⟨rfl, ?_, ?_, ?_, ?_⟩
  · intro h hcond
    unfold CircuitBreaker.check_and_trip
    simp only [h]
    rw [if_neg (by simp)]
    split_ifs with hv hp hvs
    · simp [CircuitBreaker.trip]
    · simp [CircuitBreaker.trip]
    · simp [CircuitBreaker.trip]
    · exfalso
      rcases hcond with h1 | h2 | h3
      · exact hv h1
      · linarith
      · linarith
  · intro h ht hle
    unfold CircuitBreaker.check_and_trip
    simp only [h, ht]
    rw [if_neg (not_lt.mpr hle), if_pos h]
  · intro h ht hgt hv hp hvs
    unfold CircuitBreaker.check_and_trip
    simp only [h, ht]
    rw [if_pos hgt]
    rw [if_neg (by simp [CircuitBreaker.reset]), if_neg hv,
      if_neg (not_lt.mpr hp), if_neg (not_lt.mpr hvs)]
  · intro h ht hgt hcond
    unfold CircuitBreaker.check_and_trip
    simp only [h, ht]
    rw [if_pos hgt]
    rw [if_neg (by simp [CircuitBreaker.reset])]
    split_ifs with hv hp hvs
    · simp [CircuitBreaker.trip]
    · simp [CircuitBreaker.trip]
    · simp [CircuitBreaker.trip]
    · exfalso
      rcases hcond with h1 | h2 | h3
      · exact hv h1
      · linarith
      · linarith

/-- Witness for C4: trip on extreme volatility at minute 0, remain tripped
on calm inputs at minute 30, auto-reset (returning `False`) on calm inputs
at minute 61. -/
theorem check_and_trip_spec_witness :
    (CircuitBreaker.init.check_and_trip 0 "extreme" 0 1).2 = true ∧
      ((⟨true, some .extremeVolatility, some 0, 60⟩ : CircuitBreaker).check_and_trip
          30 "normal" 0 1 =
        (⟨true, some .extremeVolatility, some 0, 60⟩, true)) ∧
      ((⟨true, some .extremeVolatility, some 0, 60⟩ : CircuitBreaker).check_and_trip
          61 "normal" 0 1 =
        ((⟨true, some .extremeVolatility, some 0, 60⟩ : CircuitBreaker).reset, false)) := by
  refine ⟨?_, ?_, ?_⟩
  · exact ((check_and_trip_spec CircuitBreaker.init 0 0 "extreme" 0 1).2.1
      rfl (Or.inl rfl)).1
  · exact (check_and_trip_spec _ 30 0 "normal" 0 1).2.2.1 rfl rfl (by norm_num)
  · exact (check_and_trip_spec _ 61 0 "normal" 0 1).2.2.2.1 rfl rfl (by norm_num)
      (by simp) (by norm_num) (by norm_num)

/-! ## thompson_sampling.py -/

/-- `BetaDistribution` dataclass (thompson_sampling.py). -/
structure BetaDistribution where
  alpha : ℚ := 1
  beta : ℚ := 1
  deriving DecidableEq

/-- `BetaDistribution.update(reward)`: branches on the (already
normalised) reward it receives. -/
def BetaDistribution.update (d : BetaDistribution) (reward : ℚ) : BetaDistribution :=
  if 0 < reward then { d with alpha := d.alpha + reward }
  else { d with beta := d.beta + (if reward < 0 then |reward| else 1/10) }

/-- `StrategyArm` dataclass (thompson_sampling.py). -/
structure StrategyArm where
  name : String
  distribution : BetaDistribution := {}
  total_pulls : ℕ := 0
  total_reward : ℚ := 0
  last_pulled : Option ℚ := none
  deriving DecidableEq

/-- `StrategyArm.pull()`: bump the pull counter, stamp `last_pulled`, and
return the Beta sample; the random draw is supplied as the oracle value
`sample`. -/
def StrategyArm.pull (arm : StrategyArm) (now : ℚ) (sample : ℚ) : StrategyArm × ℚ :=
  ({ arm with total_pulls := arm.total_pulls + 1, last_pulled := some now }, sample)

/-- `StrategyArm.update(reward)`. -/
def StrategyArm.update (arm : StrategyArm) (reward : ℚ) : StrategyArm :=
  { arm with total_reward := arm.total_reward + reward,
             distribution := arm.distribution.update reward }

/-- One record of `ThompsonSamplingSelector.selection_history`. -/
structure SelectionEntry where
  timestamp : ℚ
  selected : String
  sampled_value : ℚ
  all_samples : List (String × ℚ)
  deriving DecidableEq

/-- `ThompsonSamplingSelector` state: the `arms` dict in insertion order
plus the selection log.  (`state_file` persistence is I/O and is not
modelled.) -/
structure ThompsonSamplingSelector where
  arms : List (String × StrategyArm)
  selection_history : List SelectionEntry
  deriving DecidableEq

/-- `ThompsonSamplingSelector.__init__(strategy_names)`. -/
def ThompsonSamplingSelector.init (strategy_names : List String) :
    ThompsonSamplingSelector where
  arms := strategy_names.map fun n => (n, { name := n })
  selection_history := []

/-- Python's `max(d, key=d.get)` over an insertion-ordered dict: the first
key whose value is strictly greatest. -/
def maxByValue (l : List (String × ℚ)) : Option (String × ℚ) :=
  match l with
  | [] => none
  | x :: xs => some (xs.foldl (fun best y => if best.2 < y.2 then y else best) x)

/-- `ThompsonSamplingSelector.select_strategy(context)`: pull every arm
(in dict order), then return the arm with the highest sample.  The Beta
draws are supplied by the oracle `samples`; the unused optional `context`
argument is omitted.  A `none` selection models the `ValueError` Python's
`max` raises when there are no arms. -/
def ThompsonSamplingSelector.select_strategy (sel : ThompsonSamplingSelector)
    (now : ℚ) (samples : String → ℚ) :
    ThompsonSamplingSelector × Option (String × ℚ) :=
  let pulled := sel.arms.map fun p => (p.1, (p.2.pull now (samples p.1)).1)
  let sampleList := sel.arms.map fun p => (p.1, (p.2.pull now (samples p.1)).2)
  match maxByValue sampleList with
  | some (selected, sampled_value) =>
    ({ arms := pulled,
       selection_history := sel.selection_history ++
         [⟨now, selected, sampled_value, sampleList⟩] },
     some (selected, sampled_value))
  | none => ({ arms := pulled, selection_history := sel.selection_history }, none)

/-- `ThompsonSamplingSelector.update(strategy_name, reward)`: no-op on an
unknown strategy; otherwise clamp the affinely normalised reward to
`[0, 1]` and update that arm. -/
def ThompsonSamplingSelector.update (sel : ThompsonSamplingSelector)
    (strategy_name : String) (reward : ℚ) : ThompsonSamplingSelector :=
  if (sel.arms.lookup strategy_name).isNone then sel
  else
    let normalized_reward0 := (reward + 1/10) / (2/10)
    let normalized_reward := max 0 (min 1 normalized_reward0)
    { sel with arms := sel.arms.map fun p =>
        if p.1 = strategy_name then (p.1, p.2.update normalized_reward) else p }

theorem lookup_map_entry (l : List (String × StrategyArm)) (name : String)
    (c : ℚ) :
    List.lookup name (l.map fun p => if p.1 = name then (p.1, p.2.update c) else p) =
      (List.lookup name l).map (fun a => a.update c) := by
  induction l with
  | nil => rfl
  | cons x xs ih =>
    rcases x with ⟨k, v⟩
    dsimp only [List.map_cons]
    by_cases hk : k = name
    · subst hk
      rw [if_pos rfl]
      simp [List.lookup]
    · rw [if_neg hk]
      simp only [List.lookup]
      have hbeq : (name == k) = false := by
        simp only [beq_eq_false_iff_ne, ne_eq]
        exact fun h => hk h.symm
      simp only [hbeq, ih]

/-! ## Theorems for claim C5 -/

/-- Test fixture: a Thompson selector with a single arm at the uniform
prior. -/
def testTS : ThompsonSamplingSelector :=
  { arms := [("TrendFollowing", { name := "TrendFollowing" })], selection_history := [] }

/-- **C5 (counterexample).** The claim says that for a reward that is not
positive, `beta` is incremented (by the mapped magnitude, with floor 0.1)
— so for `reward = -0.05` it predicts `beta ≥ 1.1` and `alpha` unchanged.
The code instead branches on the *normalised* reward
`clamp((reward+0.1)/0.2, 0, 1) = 0.25 > 0`, so it increments `alpha` to
`1.25` and leaves `beta` at `1`. -/
theorem thompson_update_branch_counterexample :
    ¬ ((0:ℚ) < -1/20) ∧
      (testTS.update "TrendFollowing" (-1/20)).arms =
        [("TrendFollowing",
          { name := "TrendFollowing",
            distribution := { alpha := 5/4, beta := 1 },
            total_pulls := 0, total_reward := 1/4, last_pulled := none })] := by
  constructor
  · norm_num
  · norm_num [testTS, ThompsonSamplingSelector.update, StrategyArm.update,
      BetaDistribution.update, List.lookup]

/-- **C5 (amended).** For every `ThompsonSamplingSelector.update(name,
reward)` with a known strategy name, the reward is first mapped onto
`[0,1]` by the affine transform `(reward + 0.1) / 0.2` clamped to `[0,1]`;
then the arm's `alpha` is incremented by the mapped value if the *mapped*
value is positive (equivalently, `reward > -0.1`), else — i.e. when
`reward ≤ -0.1`, where the mapped value is `0` — the arm's `beta` is
incremented by the constant floor `0.1`.  (The arm's `total_reward`
accumulates the mapped value.) -/
theorem thompson_update_spec (sel : ThompsonSamplingSelector) (name : String)
    (reward : ℚ) (arm : StrategyArm)
    (h : List.lookup name sel.arms = some arm) :
    List.lookup name (sel.update name reward).arms =
      some { arm with
        total_reward := arm.total_reward + max 0 (min 1 ((reward + 1/10) / (2/10))),
        distribution :=
          if -1/10 < reward then
            { arm.distribution with
              alpha := arm.distribution.alpha +
                max 0 (min 1 ((reward + 1/10) / (2/10))) }
          else
            { arm.distribution with beta := arm.distribution.beta + 1/10 } } := by
  unfold ThompsonSamplingSelector.update
  rw [if_neg (by simp [h])]
  dsimp only
  rw [lookup_map_entry, h]
  simp only [Option.map_some']
  congr 1
  unfold StrategyArm.update BetaDistribution.update
  rcases le_or_lt reward (-1/10) with hr | hr
  · have hx : (reward + 1/10) / (2/10) ≤ 0 := by
      have h1 : reward + 1/10 ≤ 0 := by linarith
      have h2 : (0:ℚ) < 2/10 := by norm_num
      exact div_nonpos_iff.mpr (Or.inr ⟨h1, le_of_lt h2⟩)
    have hm : max 0 (min 1 ((reward + 1/10) / (2/10))) = 0 :=
      max_eq_left (le_trans (min_le_right _ _) hx)
    rw [if_neg (not_lt.mpr hr), hm]
    rw [if_neg (by norm_num)]
    rw [if_neg (by norm_num)]
  · have hx : (0:ℚ) < (reward + 1/10) / (2/10) := by
      apply div_pos (by linarith) (by norm_num)
    have hm : (0:ℚ) < max 0 (min 1 ((reward + 1/10) / (2/10))) :=
      lt_max_iff.mpr (Or.inr (lt_min (by norm_num) hx))
    rw [if_pos hr, if_pos hm]

/-- Witness for C5: a zero reward maps to `0.5` and therefore moves
`alpha` (not `beta`). -/
theorem thompson_update_spec_witness :
    List.lookup "TrendFollowing" (testTS.update "TrendFollowing" 0).arms =
      some { name := "TrendFollowing",
             distribution := { alpha := 3/2, beta := 1 },
             total_pulls := 0, total_reward := 1/2, last_pulled := none } := by
  have h := thompson_update_spec testTS "TrendFollowing" 0
    { name := "TrendFollowing" } (by simp [testTS, List.lookup])
  rw [h]
  norm_num

/-! ## Theorem for claim C10 -/

/-- **C10.** Every call to `ThompsonSamplingSelector.select_strategy`
increments `total_pulls` by exactly one and refreshes `last_pulled` on
*every* arm — regardless of the drawn samples and hence regardless of
which arm is returned — so each arm's `total_pulls` counts selection
rounds, not the number of times that arm was chosen. -/
theorem thompson_select_strategy_pulls_every_arm (sel : ThompsonSamplingSelector)
    (now : ℚ) (samples : String → ℚ) :
    (sel.select_strategy now samples).1.arms =
      sel.arms.map fun p =>
        (p.1, { p.2 with total_pulls := p.2.total_pulls + 1,
                         last_pulled := some now }) := by
  unfold ThompsonSamplingSelector.select_strategy StrategyArm.pull
  dsimp only
  split <;> rfl

/-! ## adaptive_multi_strategy.py: StrategySelector

`StrategySelector` is polymorphic over the sub-strategy objects: the only
members it reads are `metadata.name`, `metadata.min_fitness_threshold`
and `calculate_fitness_score`.  The market condition dict is kept as an
abstract type parameter `M`. -/

/-- The slice of a `SubStrategyBase` instance that `StrategySelector`
reads: its metadata name, its minimum-fitness threshold and its fitness
function over market conditions. -/
structure SubStrategy (M : Type) where
  name : String
  min_fitness_threshold : ℚ
  calculate_fitness_score : M → ℚ

/-- One entry of `StrategySelector.performance_history[name]` (a dict
with keys timestamp/profit/market_condition). -/
structure PerfRecord (M : Type) where
  timestamp : ℚ
  profit : ℚ
  market_condition : M

/-- One entry of `StrategySelector.selection_history`. -/
structure SelectionRecord (M : Type) where
  timestamp : ℚ
  selected : String
  score : ℚ
  all_scores : List (String × ℚ)
  market_condition : M

/-- `StrategySelector` state (adaptive_multi_strategy.py). -/
structure StrategySelector (M : Type) where
  strategies : List (SubStrategy M)
  performance_history : String → List (PerfRecord M)
  selection_history : List (SelectionRecord M)
  last_switch_time : Option ℚ
  min_switch_interval : ℚ
  current_strategy : Option String

/-- `StrategySelector.__init__(strategies)`. -/
def StrategySelector.mkInit {M : Type} (strategies : List (SubStrategy M)) :
    StrategySelector M where
  strategies := strategies
  performance_history := fun _ => []
  selection_history := []
  last_switch_time := none
  min_switch_interval := 30
  current_strategy := none

/-- `StrategySelector._get_performance_multiplier(strategy_name)`. -/
def StrategySelector.getPerformanceMultiplier {M : Type} (sel : StrategySelector M)
    (strategy_name : String) : ℚ :=
  let history := sel.performance_history strategy_name
  if history.length < 5 then 1
  else
    let recent := history.drop (history.length - 20)
    let wins := (recent.filter fun t => 0 < t.profit).length
    let win_rate := (wins : ℚ) / (recent.length : ℚ)
    7/10 + win_rate * (6/10)

/-- The scores dict built by the loop at the top of
`StrategySelector.select_best_strategy`: fitness times performance
multiplier, zeroed when below the strategy's minimum threshold. -/
def StrategySelector.computeScores {M : Type} (sel : StrategySelector M) (mc : M) :
    List (String × ℚ) :=
  sel.strategies.map fun s =>
    let base_score := s.calculate_fitness_score mc
    let adjusted_score := base_score * sel.getPerformanceMultiplier s.name
    (s.name, if adjusted_score < s.min_fitness_threshold then 0 else adjusted_score)

/-- `StrategySelector.select_best_strategy(market_condition)`: argmax of
the scores with switch hysteresis; `none` models the `ValueError` raised
by `max` on an empty strategies dict.  The hysteresis guard mirrors
Python's truthiness test `if self.current_strategy and
self.last_switch_time` (an empty-string current strategy is falsy). -/
def StrategySelector.select_best_strategy {M : Type} (sel : StrategySelector M)
    (now : ℚ) (mc : M) :
    Option (StrategySelector M × String × ℚ × List (String × ℚ)) :=
  let scores := sel.computeScores mc
  match maxByValue scores with
  | none => none
  | some (b0, s0) =>
    let best :=
      match sel.current_strategy, sel.last_switch_time with
      | some cur, some last_switch =>
        if cur ≠ "" ∧ now - last_switch < sel.min_switch_interval then
          let current_score := (List.lookup cur scores).getD 0
          if s0 < current_score * (12/10) then (cur, current_score) else (b0, s0)
        else (b0, s0)
      | _, _ => (b0, s0)
    let sel1 :=
      if sel.current_strategy ≠ some best.1 then
        { sel with current_strategy := some best.1, last_switch_time := some now }
      else sel
    some ({ sel1 with selection_history :=
              sel1.selection_history ++ [⟨now, best.1, best.2, scores, mc⟩] },
          best.1, best.2, scores)

/-- Stable insertion (before the first strictly smaller value) used to
model Python's stable `sorted(..., key=value, reverse=True)`. -/
def insertWeightDesc (x : String × ℚ) : List (String × ℚ) → List (String × ℚ)
  | [] => [x]
  | y :: ys => if y.2 < x.2 then x :: y :: ys else y :: insertWeightDesc x ys

/-- Stable descending sort by value (extensionally equal to Python's
stable `sorted(items, key=value, reverse=True)`). -/
def sortWeightsDesc : List (String × ℚ) → List (String × ℚ)
  | [] => []
  | x :: xs => insertWeightDesc x (sortWeightsDesc xs)

/-- `StrategySelector.select_ensemble(market_condition, top_n)`. -/
def StrategySelector.select_ensemble {M : Type} (sel : StrategySelector M)
    (now : ℚ) (mc : M) (top_n : ℕ) :
    Option (StrategySelector M × List (String × ℚ)) :=
  match sel.select_best_strategy now mc with
  | none => none
  | some (sel1, _, _, scores) =>
    let valid_scores := scores.filter fun p => 0 < p.2
    if valid_scores.isEmpty then some (sel1, [("TrendFollowing", 1)])
    else
      let total := (valid_scores.map fun p => p.2).sum
      let weights := valid_scores.map fun p => (p.1, p.2 / total)
      let sorted_weights := (sortWeightsDesc weights).take top_n
      let total2 := (sorted_weights.map fun p => p.2).sum
      some (sel1, sorted_weights.map fun p => (p.1, p.2 / total2))

/-! ## Theorems for claim C6 -/

/-- **C6 (amended).** When a strategy is currently active and less than
the minimum switch interval (default 30 minutes) has elapsed since the
last switch, `select_best_strategy` returns the incumbent strategy unless
the top-scoring challenger's adjusted score is *at least* 20% above the
incumbent's adjusted score (Python keeps the incumbent only while
`best_score < current_score * 1.2`); exactly then is a different strategy
returned within the interval. -/
theorem select_best_strategy_hysteresis {M : Type} (sel : StrategySelector M)
    (now : ℚ) (mc : M) (cur : String) (last_switch : ℚ) (b0 : String) (s0 : ℚ)
    (hcur : sel.current_strategy = some cur)
    (hne : cur ≠ "")
    (hlast : sel.last_switch_time = some last_switch)
    (hint : now - last_switch < sel.min_switch_interval)
    (hmax : maxByValue (sel.computeScores mc) = some (b0, s0)) :
    (sel.select_best_strategy now mc).map (fun r => r.2.1) =
      some (if s0 < (List.lookup cur (sel.computeScores mc)).getD 0 * (12/10)
            then cur else b0) := by
  unfold StrategySelector.select_best_strategy
  dsimp only
  rw [hmax, hcur, hlast]
  dsimp only
  rw [if_pos (⟨hne, hint⟩ : cur ≠ "" ∧ now - last_switch < sel.min_switch_interval)]
  by_cases hs : s0 < (List.lookup cur (sel.computeScores mc)).getD 0 * (12/10)
  · rw [if_pos hs, if_pos hs]
    split <;> rfl
  · rw [if_neg hs, if_neg hs]
    split <;> rfl

/-- Test fixtures for the hysteresis claim: market conditions are
irrelevant, so `M := Unit`; histories are empty so all performance
multipliers are `1`; thresholds are `0` so no score is zeroed. -/
def subA : SubStrategy Unit :=
  { name := "A", min_fitness_threshold := 0, calculate_fitness_score := fun _ => 1/2 }

def subB : SubStrategy Unit :=
  { name := "B", min_fitness_threshold := 0, calculate_fitness_score := fun _ => 3/5 }

def subB2 : SubStrategy Unit :=
  { name := "B", min_fitness_threshold := 0, calculate_fitness_score := fun _ => 11/20 }

/-- A selector with incumbent `"A"` (score `0.5`) that switched at minute
0, and a challenger `"B"` whose score `0.6` is *exactly* 20% above the
incumbent's. -/
def testSel : StrategySelector Unit :=
  { strategies := [subA, subB], performance_history := fun _ => [],
    selection_history := [], last_switch_time := some 0,
    min_switch_interval := 30, current_strategy := some "A" }

/-- Like `testSel` but with challenger score `0.55`, strictly below the
20% improvement bar. -/
def testSel2 : StrategySelector Unit :=
  { strategies := [subA, subB2], performance_history := fun _ => [],
    selection_history := [], last_switch_time := some 0,
    min_switch_interval := 30, current_strategy := some "A" }

/-- **C6 (counterexample).** The claim says a different strategy is
returned within the interval only when the challenger's score *exceeds*
the incumbent's by more than 20%.  At minute 10 (inside the 30-minute
interval), with incumbent score `0.5` and challenger score `0.6 = 0.5 ×
1.2` — exactly 20% better, not more — the code nevertheless returns the
challenger `"B"`. -/
theorem select_best_strategy_hysteresis_counterexample :
    (testSel.select_best_strategy 10 ()).map (fun r => r.2.1) = some "B" ∧
      ¬ ((1/2 : ℚ) * (12/10) < 3/5) ∧ ((10 : ℚ) - 0 < 30) := by
  refine ⟨?_, by norm_num, by norm_num⟩
  norm_num [testSel, subA, subB, StrategySelector.select_best_strategy,
    StrategySelector.computeScores, StrategySelector.getPerformanceMultiplier,
    maxByValue, List.lookup]

/-- Witness for C6: with a challenger at `0.55 < 0.5 × 1.2`, the incumbent
`"A"` is kept within the interval. -/
theorem select_best_strategy_hysteresis_witness :
    (testSel2.select_best_strategy 10 ()).map (fun r => r.2.1) = some "A" := by
  have h := select_best_strategy_hysteresis testSel2 10 () "A" 0 "B" (11/20)
    rfl (by decide) rfl (by norm_num [testSel2])
    (by norm_num [testSel2, subA, subB2, StrategySelector.computeScores,
      StrategySelector.getPerformanceMultiplier, maxByValue])
  rw [h]
  norm_num [testSel2, subA, subB2, StrategySelector.computeScores,
    StrategySelector.getPerformanceMultiplier, List.lookup]

/-! ## Theorems for claim C7 -/

theorem maxByValue_isSome (l : List (String × ℚ)) (h : l ≠ []) :
    ∃ p, maxByValue l = some p := by
  cases l with
  | nil => exact absurd rfl h
  | cons x xs => exact ⟨_, rfl⟩

theorem sum_map_snd_div (l : List (String × ℚ)) (c : ℚ) :
    ((l.map fun p => (p.1, p.2 / c)).map fun p => p.2).sum =
      ((l.map fun p => p.2).sum) / c := by
  induction l with
  | nil => simp
  | cons x xs ih => simp only [List.map_cons, List.sum_cons, add_div, ih]

theorem mem_insertWeightDesc (x p : String × ℚ) (l : List (String × ℚ)) :
    p ∈ insertWeightDesc x l ↔ p = x ∨ p ∈ l := by
  induction l with
  | nil => simp [insertWeightDesc]
  | cons y ys ih =>
    unfold insertWeightDesc
    split
    · simp [List.mem_cons]
    · simp only [List.mem_cons, ih]
      tauto

theorem mem_sortWeightsDesc (p : String × ℚ) (l : List (String × ℚ)) :
    p ∈ sortWeightsDesc l ↔ p ∈ l := by
  induction l with
  | nil => simp [sortWeightsDesc]
  | cons x xs ih => simp [sortWeightsDesc, mem_insertWeightDesc, ih]

theorem length_insertWeightDesc (x : String × ℚ) (l : List (String × ℚ)) :
    (insertWeightDesc x l).length = l.length + 1 := by
  induction l with
  | nil => rfl
  | cons y ys ih =>
    unfold insertWeightDesc
    split
    · rfl
    · simp [ih]

theorem length_sortWeightsDesc (l : List (String × ℚ)) :
    (sortWeightsDesc l).length = l.length := by
  induction l with
  | nil => rfl
  | cons x xs ih => simp [sortWeightsDesc, length_insertWeightDesc, ih]

/-- `select_best_strategy` on a non-empty strategies list always returns
a result whose fourth component is the scores dict. -/
theorem select_best_strategy_scores {M : Type} (sel : StrategySelector M)
    (now : ℚ) (mc : M) (hne : sel.strategies ≠ []) :
    ∃ sel1 b s, sel.select_best_strategy now mc =
      some (sel1, b, s, sel.computeScores mc) := by
  have hlen : sel.computeScores mc ≠ [] := by
    unfold StrategySelector.computeScores
    simpa using hne
  obtain ⟨p, hp⟩ := maxByValue_isSome _ hlen
  rcases p with ⟨b0, s0⟩
  unfold StrategySelector.select_best_strategy
  dsimp only
  rw [hp]
  exact ⟨_, _, _, rfl⟩

/-- **C7.** For every market condition and every `top_n ≥ 1` (on a
selector with a non-empty strategies dict, without which Python's `max`
raises), `select_ensemble` returns a weight map whose values sum to
exactly `1`, with at most `top_n` entries, all of strictly positive
weight; and when no candidate's adjusted score clears its
minimum-fitness threshold the result is the single default strategy
`"TrendFollowing"` with weight `1`. -/
theorem select_ensemble_weights {M : Type} (sel : StrategySelector M)
    (now : ℚ) (mc : M) (top_n : ℕ)
    (hne : sel.strategies ≠ []) (htop : 1 ≤ top_n) :
    (sel.select_ensemble now mc top_n).isSome = true ∧
    ∀ sel1 ws, sel.select_ensemble now mc top_n = some (sel1, ws) →
      ((ws.map fun p => p.2).sum = 1 ∧
       ws.length ≤ top_n ∧
       (∀ p ∈ ws, 0 < p.2) ∧
       ((∀ s ∈ sel.strategies,
           s.calculate_fitness_score mc * sel.getPerformanceMultiplier s.name <
             s.min_fitness_threshold) →
         ws = [("TrendFollowing", 1)])) := by
  obtain ⟨sel0, b, s, hbest⟩ := select_best_strategy_scores sel now mc hne
  unfold StrategySelector.select_ensemble
  rw [hbest]
  dsimp only
  rcases hfil : (sel.computeScores mc).filter (fun p => decide (0 < p.2)) with _ | ⟨v, vs⟩
  · rw [hfil]
    simp only [List.isEmpty_nil, if_true]
    refine ⟨rfl, ?_⟩
    intro sel1 ws hws
    have hws2 : ws = [("TrendFollowing", (1:ℚ))] := by
      simpa using (congrArg (fun o => (o.map Prod.snd).getD []) hws).symm
    subst hws2
    refine ⟨by simp, by simpa using htop, by simp, fun _ => rfl⟩
  · rw [hfil]
    simp only [List.isEmpty_cons, if_false]
    have hmem : ∀ p ∈ v :: vs, 0 < p.2 := by
      intro p hp
      rw [← hfil] at hp
      exact of_decide_eq_true (List.mem_filter.mp hp).2
    have htotal : 0 < (((v :: vs).map fun p => p.2).sum) := by
      apply List.sum_pos
      · intro x hx
        obtain ⟨p, hp, rfl⟩ := List.mem_map.mp hx
        exact hmem p hp
      · simp
    set total := (((v :: vs).map fun p => p.2).sum) with htot
    set weights := (v :: vs).map fun p => (p.1, p.2 / total) with hweights
    have hwpos : ∀ p ∈ weights, 0 < p.2 := by
      intro p hp
      obtain ⟨q, hq, rfl⟩ := List.mem_map.mp hp
      exact div_pos (hmem q hq) htotal
    have hwne : weights ≠ [] := by simp [hweights]
    set taken := (sortWeightsDesc weights).take top_n with htaken
    have htkpos : ∀ p ∈ taken, 0 < p.2 := by
      intro p hp
      exact hwpos p ((mem_sortWeightsDesc p weights).mp (List.take_subset _ _ hp))
    have htkne : taken ≠ [] := by
      rw [← List.length_pos, htaken, List.length_take, length_sortWeightsDesc]
      have h1 : 0 < weights.length := List.length_pos.mpr hwne
      omega
    have htotal2 : 0 < ((taken.map fun p => p.2).sum) := by
      apply List.sum_pos
      · intro x hx
        obtain ⟨p, hp, rfl⟩ := List.mem_map.mp hx
        exact htkpos p hp
      · simpa using htkne
    refine ⟨rfl, ?_⟩
    intro sel1 ws hws
    have hws2 : ws = taken.map fun p => (p.1, p.2 / ((taken.map fun p => p.2).sum)) := by
      simpa using (congrArg (fun o => (o.map Prod.snd).getD []) hws).symm
    subst hws2
    refine ⟨?_, ?_, ?_, ?_⟩
    · rw [sum_map_snd_div]
      exact div_self (ne_of_gt htotal2)
    · rw [List.length_map]
      exact le_trans (List.length_take_le _ _) le_rfl
    · intro p hp
      obtain ⟨q, hq, rfl⟩ := List.mem_map.mp hp
      exact div_pos (htkpos q hq) htotal2
    · intro hbelow
      exfalso
      have hnil : (sel.computeScores mc).filter (fun p => decide (0 < p.2)) = [] := by
        rw [List.filter_eq_nil_iff]
        intro p hp
        unfold StrategySelector.computeScores at hp
        obtain ⟨st, hst, rfl⟩ := List.mem_map.mp hp
        have := hbelow st hst
        simp only [decide_eq_true_eq]
        rw [if_pos this]
        exact lt_irrefl 0
      rw [hnil] at hfil
      exact List.noConfusion hfil

/-- Witness for C7 at `testSel` with `top_n = 1`: the ensemble exists and
its weights sum to `1`. -/
theorem select_ensemble_weights_witness :
    (testSel.select_ensemble 10 () 1).isSome = true ∧
      ((testSel.select_ensemble 10 () 1).map
          (fun r => (r.2.map fun p => p.2).sum)).getD 0 = 1 := by
  have h := select_ensemble_weights testSel 10 () 1 (by simp [testSel]) le_rfl
  refine ⟨h.1, ?_⟩
  rcases hsel : testSel.select_ensemble 10 () 1 with _ | ⟨sel1, ws⟩
  · rw [hsel] at h
    simp at h
  · simpa using (h.2 sel1 ws hsel).1

/-! ## market_regime.py: TrendDetector

The OHLCV dataframe is modelled as a list of bars carrying the columns
`TrendDetector` reads (`high`, `low`, `close`).  Missing values (pandas
`NaN`, produced by `diff`/`shift` and by incomplete rolling windows) are
modelled as `none`; a division whose denominator is zero (pandas would
produce `±inf`) is conservatively treated as missing too — the property
proved below only exercises the short-input branch, which involves no
arithmetic at all. -/

/-- One row of the OHLCV dataframe (the columns read by `TrendDetector`). -/
structure Bar where
  high : ℚ
  low : ℚ
  close : ℚ
  deriving DecidableEq

/-- The `TrendState` enum (market_regime.py). -/
inductive TrendState where
  | strong_uptrend
  | uptrend
  | weak_uptrend
  | sideways
  | weak_downtrend
  | downtrend
  | strong_downtrend
  deriving DecidableEq

/-- `Series.diff()`: first entry missing, then successive differences. -/
def seriesDiff (xs : List ℚ) : List (Option ℚ) :=
  match xs with
  | [] => []
  | _ :: rest => none :: List.zipWith (fun a b => some (a - b)) rest xs

/-- `Series.shift()`: first entry missing, then the values shifted down. -/
def seriesShift (xs : List ℚ) : List (Option ℚ) :=
  match xs with
  | [] => []
  | _ :: _ => none :: xs.dropLast.map some

/-- `Series.rolling(window=w).mean()`: missing until `w` values are
available and whenever the window contains a missing value. -/
def rollingMeanO (w : ℕ) (xs : List (Option ℚ)) : List (Option ℚ) :=
  (List.range xs.length).map fun i =>
    if i + 1 < w then none
    else
      let win := (xs.drop (i + 1 - w)).take w
      if win.any fun o => o.isNone then none
      else some ((win.filterMap id).sum / (w : ℚ))

/-- Division on missing-aware values; zero denominators are treated as
missing (see the section comment). -/
def odiv (a b : Option ℚ) : Option ℚ :=
  match a, b with
  | some x, some y => if y = 0 then none else some (x / y)
  | _, _ => none

/-- The true-range series `max(h-l, |h-prev_c|, |l-prev_c|)`; pandas'
row-wise `max` skips missing values, so the first row falls back to
`high - low`. -/
def trueRange (df : List Bar) : List ℚ :=
  List.zipWith
    (fun b pc =>
      match pc with
      | none => b.high - b.low
      | some c => max (b.high - b.low) (max |b.high - c| |b.low - c|))
    df (seriesShift (df.map fun b => b.close))

/-- `TrendDetector` configuration (market_regime.py). -/
structure TrendDetector where
  adx_period : ℕ := 14
  ema_periods : List ℕ := [20, 50, 200]
  deriving DecidableEq

/-- `TrendDetector.calculate_adx(df)`. -/
def TrendDetector.calculate_adx (td : TrendDetector) (df : List Bar) :
    List (Option ℚ) :=
  let plus_dm := (seriesDiff (df.map fun b => b.high)).map fun o =>
    o.map fun v => if v < 0 then 0 else v
  let minus_dm0 := (seriesDiff (df.map fun b => b.low)).map fun o =>
    o.map fun v => -|v|
  let minus_dm := minus_dm0.map fun o => o.map fun v => |if 0 < v then 0 else v|
  let atr := rollingMeanO td.adx_period ((trueRange df).map some)
  let plus_di := List.zipWith (fun a b => (odiv a b).map fun q => 100 * q)
    (rollingMeanO td.adx_period plus_dm) atr
  let minus_di := List.zipWith (fun a b => (odiv a b).map fun q => 100 * q)
    (rollingMeanO td.adx_period minus_dm) atr
  let dx := List.zipWith
    (fun p m =>
      match p, m with
      | some pv, some mv =>
        if pv + mv = 0 then none else some (100 * |pv - mv| / (pv + mv))
      | _, _ => none)
    plus_di minus_di
  rollingMeanO td.adx_period dx

/-- The recursion underlying `Series.ewm(span, adjust=False).mean()`. -/
def ewmStep (a : ℚ) : ℚ → List ℚ → List ℚ
  | _, [] => []
  | prev, v :: rest =>
    let y := a * v + (1 - a) * prev
    y :: ewmStep a y rest

/-- `Series.ewm(span=span, adjust=False).mean()`. -/
def ewmMean (span : ℕ) : List ℚ → List ℚ
  | [] => []
  | x :: rest => x :: ewmStep (2 / ((span : ℚ) + 1)) x rest

/-- One entry of `TrendDetector.calculate_ema_slopes(df)`: the 5-bar EMA
slope, normalised by price, in percent. -/
def emaSlope (period : ℕ) (closes : List ℚ) : ℚ :=
  let ema := ewmMean period closes
  if 5 ≤ ema.length then
    let lastv := (ema.getLast?).getD 0
    let prev5 := ((ema.drop (ema.length - 5)).headD 0)
    (lastv - prev5) / prev5 * 100
  else 0

/-- The `details` dict returned by `TrendDetector.detect`: either the
degraded `{"reason": "insufficient_data"}` or the full metrics dict. -/
inductive TrendDetails where
  | insufficient (reason : String)
  | metrics (adx : ℚ) (slopes : List ℚ) (avg_slope : ℚ) (above_emas : ℕ)
      (ema_20 ema_50 ema_200 : ℚ)
  deriving DecidableEq

/-- `TrendDetector.detect(df)`: `(trend_state, confidence, details)`. -/
def TrendDetector.detect (td : TrendDetector) (df : List Bar) :
    TrendState × ℚ × TrendDetails :=
  if df.length < 200 then
    (TrendState.sideways, 1/2, .insufficient "insufficient_data")
  else
    let adx := td.calculate_adx df
    let current_adx := ((adx.getLast?).getD none).getD 20
    let closes := df.map fun b => b.close
    let slopes := td.ema_periods.map fun p => emaSlope p closes
    let current_price := (closes.getLast?).getD 0
    let ema_20 := ((ewmMean 20 closes).getLast?).getD 0
    let ema_50 := ((ewmMean 50 closes).getLast?).getD 0
    let ema_200 := ((ewmMean 200 closes).getLast?).getD 0
    let above_emas := (if current_price > ema_20 then 1 else 0) +
      ((if current_price > ema_50 then 1 else 0) +
        (if current_price > ema_200 then 1 else 0))
    let avg_slope := slopes.sum / (slopes.length : ℚ)
    let classified : TrendState × ℚ :=
      if current_adx > 40 ∧ avg_slope > 1 then
        (TrendState.strong_uptrend, min (95/100) (7/10 + current_adx / 100))
      else if current_adx > 25 ∧ avg_slope > 1/2 then (TrendState.uptrend, 3/4)
      else if current_adx > 20 ∧ avg_slope > 0 then (TrendState.weak_uptrend, 3/5)
      else if current_adx > 40 ∧ avg_slope < -1 then
        (TrendState.strong_downtrend, min (95/100) (7/10 + current_adx / 100))
      else if current_adx > 25 ∧ avg_slope < -(1/2) then (TrendState.downtrend, 3/4)
      else if current_adx > 20 ∧ avg_slope < 0 then (TrendState.weak_downtrend, 3/5)
      else (TrendState.sideways, if current_adx < 20 then 4/5 else 3/5)
    (classified.1, classified.2,
      .metrics current_adx slopes avg_slope above_emas ema_20 ema_50 ema_200)

/-! ## Theorems for claim C8 -/

/-- **C8.** For every OHLCV series with fewer than 200 bars,
`TrendDetector.detect` fails soft: it returns `sideways` with confidence
`0.5` and reason `"insufficient_data"` (a total function — no exception),
so the regime-analysis cycle completes with a neutral/degraded
snapshot. -/
theorem trend_detect_insufficient (td : TrendDetector) (df : List Bar)
    (h : df.length < 200) :
    td.detect df =
      (TrendState.sideways, 1/2, TrendDetails.insufficient "insufficient_data") := by
  unfold TrendDetector.detect
  rw [if_pos h]

/-- Witness for C8 on the empty series with the default detector
configuration. -/
theorem trend_detect_insufficient_witness :
    ({} : TrendDetector).detect [] =
      (TrendState.sideways, 1/2, TrendDetails.insufficient "insufficient_data") :=
  trend_detect_insufficient {} [] (by norm_num)

/-! ## performance_tracker.py

Timestamps here are measured in hours (the tracker's lookback is given in
hours).  The `market_condition` field of a `TradeResult` is only read by
`get_best_strategy_for_condition`, which is not embedded, and is
omitted. -/

/-- `TradeResult` dataclass (performance_tracker.py). -/
structure TradeResult where
  timestamp : ℚ
  strategy : String
  pair : String
  side : String
  entry_price : ℚ
  exit_price : ℚ
  profit_ratio : ℚ
  profit_abs : ℚ
  hold_duration_seconds : ℚ
  entry_reason : String
  exit_reason : String
  deriving DecidableEq

/-- `StrategyPerformanceStats` dataclass (performance_tracker.py). -/
structure StrategyPerformanceStats where
  strategy_name : String
  period_start : ℚ
  period_end : ℚ
  total_trades : ℕ := 0
  winning_trades : ℕ := 0
  losing_trades : ℕ := 0
  total_profit : ℚ := 0
  total_loss : ℚ := 0
  max_win : ℚ := 0
  max_loss : ℚ := 0
  avg_hold_duration : ℚ := 0
  deriving DecidableEq

/-- `StrategyPerformanceStats.win_rate` property. -/
def StrategyPerformanceStats.win_rate (s : StrategyPerformanceStats) : ℚ :=
  if s.total_trades = 0 then 1/2
  else (s.winning_trades : ℚ) / (s.total_trades : ℚ)

/-- `StrategyPerformanceStats.profit_factor` property. -/
def StrategyPerformanceStats.profit_factor (s : StrategyPerformanceStats) : ℚ :=
  if s.total_loss = 0 then (if 0 < s.total_profit then 10 else 1)
  else |s.total_profit / s.total_loss|

/-- `PerformanceTracker` state: the in-memory trade log (file persistence
is I/O and is not modelled). -/
structure PerformanceTracker where
  trades : List TradeResult
  deriving DecidableEq

/-- The loop body of `PerformanceTracker.get_strategy_stats`. -/
def statsFold (stats : StrategyPerformanceStats) (trade : TradeResult) :
    StrategyPerformanceStats :=
  let stats := { stats with total_trades := stats.total_trades + 1 }
  if 0 < trade.profit_ratio then
    { stats with winning_trades := stats.winning_trades + 1,
                 total_profit := stats.total_profit + trade.profit_ratio,
                 max_win := max stats.max_win trade.profit_ratio }
  else
    { stats with losing_trades := stats.losing_trades + 1,
                 total_loss := stats.total_loss + trade.profit_ratio,
                 max_loss := min stats.max_loss trade.profit_ratio }

/-- `PerformanceTracker.get_strategy_stats(strategy, lookback_hours)`;
`now` is the current time in hours. -/
def PerformanceTracker.get_strategy_stats (pt : PerformanceTracker)
    (strategy : String) (lookback_hours : ℚ) (now : ℚ) :
    StrategyPerformanceStats :=
  let cutoff := now - lookback_hours
  let relevant_trades := pt.trades.filter fun t =>
    t.strategy = strategy ∧ cutoff < t.timestamp
  let stats := relevant_trades.foldl statsFold
    { strategy_name := strategy, period_start := cutoff, period_end := now }
  if relevant_trades.isEmpty then stats
  else
    { stats with avg_hold_duration :=
        (relevant_trades.map fun t => t.hold_duration_seconds).sum /
          (relevant_trades.length : ℚ) }

/-! ## Theorem for claim C9 -/

/-- Test fixture: one closed trade of strategy `"X"`. -/
def mkTrade (ts pr : ℚ) : TradeResult :=
  { timestamp := ts, strategy := "X", pair := "BTC/USDT", side := "long",
    entry_price := 100, exit_price := 100 * (1 + pr), profit_ratio := pr,
    profit_abs := 100 * pr, hold_duration_seconds := 3600,
    entry_reason := "entry", exit_reason := "exit" }

/-- Test fixture: 7 winners at `+0.02` and 3 losers at `-0.01`, all
inside the 168-hour window ending at hour 168. -/
def testTracker : PerformanceTracker :=
  { trades := [mkTrade 1 (2/100), mkTrade 2 (2/100), mkTrade 3 (2/100),
               mkTrade 4 (2/100), mkTrade 5 (2/100), mkTrade 6 (2/100),
               mkTrade 7 (2/100), mkTrade 8 (-1/100), mkTrade 9 (-1/100),
               mkTrade 10 (-1/100)] }

/-- **C9.** `PerformanceTracker.get_strategy_stats` over a window
containing exactly 7 winning trades with `profit_ratio = 0.02` and 3
losing trades with `profit_ratio = -0.01` for one strategy yields
`win_rate = 0.7` and `profit_factor = (7×0.02)/(3×0.01) = 14/3 ≈ 4.67`. -/
theorem tracker_stats_scenario :
    (testTracker.get_strategy_stats "X" 168 168).win_rate = 7/10 ∧
      (testTracker.get_strategy_stats "X" 168 168).profit_factor = 14/3 := by
  norm_num [testTracker, mkTrade, PerformanceTracker.get_strategy_stats, statsFold,
    StrategyPerformanceStats.win_rate, StrategyPerformanceStats.profit_factor,
    List.filter, List.foldl]
